import Mathlib

/-!
Verification of the secan fiber-section solver (material.py, geometry.py,
section.py) against its natural-language specification.

Modelling conventions:
* Python float arithmetic is embedded as exact rational (`ℚ`) or real (`ℝ`)
  arithmetic; float literals are read as exact decimals.
* A Python function that can raise returns `Except PyErr _`;
  a numpy computation that produces a non-finite float (nan/inf) instead of
  raising is modelled with `Option` (`none` = non-finite).
* Loops with an iteration cap become fuel recursion, with the fuel equal to
  the cap.
-/

namespace Secan

/-- Kinds of Python exceptions that the modelled code can raise. -/
inductive PyErr where
  | zeroDivisionError
  | typeError
  | valueError
  | attributeError
deriving DecidableEq

/-- A numpy computation result that is either a plain Python scalar or an
ndarray.  The distinction is load-bearing: `np.sum(x)` accepts both, but the
method call `x.sum()` in `RectSection.get_stiffness` (geometry.py 247)
raises `AttributeError` when `x` is a plain float. -/
inductive NpVal where
  | scalar (q : ℚ)
  | arr (xs : List ℚ)
deriving DecidableEq

/-- `np.sum(v)`: the identity on a scalar, the sum of an array. -/
def NpVal.npSum : NpVal → ℚ
  | .scalar q => q
  | .arr xs => xs.sum

/-- Multiplication of a numpy value by a Python scalar (`v * c`),
broadcasting over an array. -/
def NpVal.scale (v : NpVal) (c : ℚ) : NpVal :=
  match v with
  | .scalar q => .scalar (q * c)
  | .arr xs => .arr (xs.map (fun x => x * c))

/-- Elementwise product `v * ds` of a numpy value with an ndarray `ds`:
a scalar broadcasts over `ds`, an array multiplies componentwise. -/
def NpVal.mulArr (v : NpVal) (ds : List ℚ) : List ℚ :=
  match v with
  | .scalar q => ds.map (fun d => q * d)
  | .arr xs => List.zipWith (· * ·) xs ds

/-- A uniaxial material law as consumed by fibers and the section solver.
The source is duck-typed (any object with `get_stress`/`get_stiff`), and the
point fibers call these methods with a scalar strain while `RectSection`
calls them with an ndarray of layer strains, so the record carries both
behaviours: `stress`/`stiff` model the scalar calls, `stress_arr`/
`stiff_arr` model the ndarray calls, whose result may be an array
(vectorized law), a plain scalar (e.g. `Linear.get_stiff` returns
`self.young` unchanged), or an exception (the chained comparisons of the
steel laws on arrays of more than one element). -/
structure Mat where
  stress : ℚ → ℚ
  stiff : ℚ → ℚ
  stress_arr : List ℚ → Except PyErr NpVal
  stiff_arr : List ℚ → Except PyErr NpVal

/-- The double value of `math.pi`, used by `Rebar.__init__` (geometry.py
line 301) to set the initial `_area`. -/
def piFloat : ℚ := 3.141592653589793

/-- A 2x2 tangent stiffness matrix `[[a00, a01], [a10, a11]]`. -/
structure M2 where
  a00 : ℚ
  a01 : ℚ
  a10 : ℚ
  a11 : ℚ
deriving DecidableEq

/-- The zero 2x2 matrix, `np.array([[0, 0], [0, 0]])`. -/
def M2.zero : M2 := ⟨0, 0, 0, 0⟩

/-- Entrywise matrix addition (numpy `+`). -/
def M2.add (x y : M2) : M2 :=
  ⟨x.a00 + y.a00, x.a01 + y.a01, x.a10 + y.a10, x.a11 + y.a11⟩

/-- Model of `np.array(list).sum(axis=0)` for a list of 2x2 matrices. -/
def M2.sumList (l : List M2) : M2 := l.foldl M2.add M2.zero

/-- Material `Linear` (material.py 55-97): `get_stress`. -/
def Linear.get_stress (young strain : ℚ) : ℚ := young * strain

/-- Material `Linear`: `get_stiff` returns the modulus everywhere. -/
def Linear.get_stiff (young : ℚ) : ℚ := young

/-- A `Linear` material packaged as a `Mat` record.  On an ndarray,
`get_stress` broadcasts (`young * strain` is an array), but `get_stiff`
executes `return self.young` regardless of the argument and hands back a
plain Python scalar (material.py 75-85). -/
def Linear.mat (young : ℚ) : Mat where
  stress := fun s => Linear.get_stress young s
  stiff := fun _ => Linear.get_stiff young
  stress_arr := fun xs => Except.ok (NpVal.arr (xs.map (fun s => Linear.get_stress young s)))
  stiff_arr := fun _ => Except.ok (NpVal.scalar (Linear.get_stiff young))

/-- Model of `SteelIdeal.fy` setter derived attribute `yield_strain = fy / young`
(material.py 244-247). -/
def SteelIdeal.yield_strain (young fy : ℚ) : ℚ := fy / young

/-- Model of `SteelIdeal.get_stiff` on a scalar strain (material.py 249-262). -/
def SteelIdeal.get_stiff (young fy strain : ℚ) : ℚ :=
  if -SteelIdeal.yield_strain young fy ≤ strain ∧
      strain ≤ SteelIdeal.yield_strain young fy then young else 0

/-- Model of `SteelIdeal.get_stress` on a scalar strain (material.py 264-279).
The plateau branch divides by `abs(strain)`; with a positive yield strain
that branch is only reached for `strain ≠ 0`. -/
def SteelIdeal.get_stress (young fy ultimate_strain strain : ℚ) : ℚ :=
  if -SteelIdeal.yield_strain young fy ≤ strain ∧
      strain ≤ SteelIdeal.yield_strain young fy then young * strain
  else if -ultimate_strain ≤ strain ∧ strain ≤ ultimate_strain then
    fy * strain / |strain|
  else 0

/-- A `SteelIdeal` material packaged as a `Mat` record.  On an ndarray the
chained comparisons ask for the truth value of a boolean array: numpy only
grants one to single-element arrays and raises `ValueError` otherwise
(material.py 249-279).  On a single-element array, the elastic and plateau
branches return arrays (scalar times array), while the final `return 0`
returns a plain scalar; `get_stiff` returns a plain scalar (`young` or `0`)
in every branch. -/
def SteelIdeal.mat (young fy ultimate_strain : ℚ) : Mat where
  stress := fun s => SteelIdeal.get_stress young fy ultimate_strain s
  stiff := fun s => SteelIdeal.get_stiff young fy s
  stress_arr := fun xs =>
    match xs with
    | [x] =>
      if -SteelIdeal.yield_strain young fy ≤ x ∧ x ≤ SteelIdeal.yield_strain young fy then
        Except.ok (NpVal.arr [young * x])
      else if -ultimate_strain ≤ x ∧ x ≤ ultimate_strain then
        Except.ok (NpVal.arr [fy * x / |x|])
      else Except.ok (NpVal.scalar 0)
    | _ => Except.error PyErr.valueError
  stiff_arr := fun xs =>
    match xs with
    | [x] => Except.ok (NpVal.scalar (SteelIdeal.get_stiff young fy x))
    | _ => Except.error PyErr.valueError

/-- Model of `SteelIdeal.get_stiff` applied to a numpy array of strains.  The chained
comparison `-ys <= strain <= ys` evaluates `bool()` of an interim boolean
array; numpy only gives arrays with exactly one element a truth value and
raises `ValueError` (ambiguous truth value) otherwise, so the scalar law is
applied only to one-element arrays. -/
def SteelIdeal.get_stiff_array (young fy : ℚ) (strains : List ℚ) :
    Except PyErr (List ℚ) :=
  if strains.length = 1 then
    Except.ok (strains.map (fun s => SteelIdeal.get_stiff young fy s))
  else Except.error PyErr.valueError

/-- Model of `SteelIdeal.get_stress` applied to a numpy array of strains; same
truth-value restriction as `SteelIdeal.get_stiff_array`. -/
def SteelIdeal.get_stress_array (young fy ultimate_strain : ℚ)
    (strains : List ℚ) : Except PyErr (List ℚ) :=
  if strains.length = 1 then
    Except.ok (strains.map (fun s => SteelIdeal.get_stress young fy ultimate_strain s))
  else Except.error PyErr.valueError

/-- Model of `Linear.get_stress` on a numpy array: `young * strain` broadcasts
elementwise with no branching, so every array works. -/
def Linear.get_stress_array (young : ℚ) (strains : List ℚ) : List ℚ :=
  strains.map (fun s => Linear.get_stress young s)

/-- Model of `SteelHardening.ft` setter derived attribute
`hardening_stiffness = (ft - fy) / (ultimate_strain - yield_strain)`
(material.py 343-352). -/
def SteelHardening.hardening_stiffness (young fy ft ultimate_strain : ℚ) : ℚ :=
  (ft - fy) / (ultimate_strain - SteelIdeal.yield_strain young fy)

/-- Model of `SteelHardening.get_stress` (material.py 371-388): elastic band, tension
hardening branch for `yield_strain < strain < ultimate_strain`, a `±fy`
plateau branch for `-ultimate_strain ≤ strain ≤ -yield_strain`, else zero. -/
def SteelHardening.get_stress (young fy ft ultimate_strain strain : ℚ) : ℚ :=
  if -SteelIdeal.yield_strain young fy ≤ strain ∧
      strain ≤ SteelIdeal.yield_strain young fy then young * strain
  else if SteelIdeal.yield_strain young fy < strain ∧ strain < ultimate_strain then
    fy + (strain - SteelIdeal.yield_strain young fy) *
      SteelHardening.hardening_stiffness young fy ft ultimate_strain
  else if -ultimate_strain ≤ strain ∧ strain ≤ -SteelIdeal.yield_strain young fy then
    fy * strain / |strain|
  else 0

/-- Model of `SteelHardening.get_stiff` (material.py 354-369). -/
def SteelHardening.get_stiff (young fy ft ultimate_strain strain : ℚ) : ℚ :=
  if -SteelIdeal.yield_strain young fy ≤ strain ∧
      strain ≤ SteelIdeal.yield_strain young fy then young
  else if SteelIdeal.yield_strain young fy < strain ∧ strain < ultimate_strain then
    SteelHardening.hardening_stiffness young fy ft ultimate_strain
  else 0

/-- The fiber variants of geometry.py: `RectSection (width, height, center,
material, n_discret)`, `Rebar (diameter, center, material)` and `Tendon`,
which extends `Rebar` with `initial_strain` and `strain_ULS`. -/
inductive Fiber where
  | rect (width height cx cy : ℚ) (mat : Mat) (n_discret : ℕ)
  | rebar (diameter cx cy : ℚ) (mat : Mat)
  | tendon (diameter cx cy : ℚ) (mat : Mat) (initial_strain strain_ULS : ℚ)

/-- Model of `RectSection._discretize` layer heights `(height/2 + height*i)/n`
(geometry.py 157-161). -/
def RectSection.h_discret (height : ℚ) (n : ℕ) : List ℚ :=
  (List.range n).map (fun i => (height / 2 + height * i) / n)

/-- Model of `RectSection.area_discret = area / n`. -/
def RectSection.area_discret (width height : ℚ) (n : ℕ) : ℚ :=
  width * height / n

/-- Model of `RectSection.get_strains`: `e0 + k * (height/2 - h_discret)`
(geometry.py 195-206). -/
def RectSection.get_strains (height : ℚ) (n : ℕ) (e0 k : ℚ) : List ℚ :=
  (RectSection.h_discret height n).map (fun h => e0 + k * (height / 2 - h))

/-- Model of `RectSection.get_e0_sec`: `e0 + k * (center - self.center[1])`
(geometry.py 208-220). -/
def RectSection.get_e0_sec (cy e0 k center : ℚ) : ℚ := e0 + k * (center - cy)

/-- Model of `RectSection.get_normal_resistance_discrete` (geometry.py
222-226): `material.get_stress(strains)` is an ndarray call, whose result
(array, plain scalar, or exception, depending on the material) is then
multiplied by the scalar `area_discret`. -/
def RectSection.get_normal_resistance_discrete (width height cy : ℚ) (m : Mat)
    (n : ℕ) (e0 k center : ℚ) : Except PyErr NpVal :=
  match m.stress_arr
      (RectSection.get_strains height n (RectSection.get_e0_sec cy e0 k center) k) with
  | Except.error e => Except.error e
  | Except.ok v => Except.ok (v.scale (RectSection.area_discret width height n))

/-- Model of `RectSection.get_normal_resistance` (geometry.py 228-229):
`np.sum` accepts a plain scalar as well as an array, so no error arises
here beyond those of the material call. -/
def RectSection.get_normal_resistance (width height cy : ℚ) (m : Mat) (n : ℕ)
    (e0 k center : ℚ) : Except PyErr ℚ :=
  match RectSection.get_normal_resistance_discrete width height cy m n e0 k center with
  | Except.error e => Except.error e
  | Except.ok v => Except.ok v.npSum

/-- Distance of each layer from the section reference height:
`(center - self.center[1]) + (height/2 - h_discret)` (geometry.py 233, 245). -/
def RectSection.dists (height cy : ℚ) (n : ℕ) (center : ℚ) : List ℚ :=
  (RectSection.h_discret height n).map (fun h => (center - cy) + (height / 2 - h))

/-- Model of `RectSection.get_moment_resistance` (geometry.py 231-234):
`np.sum(normal * dist)` where `dist` is an ndarray, so a scalar `normal`
broadcasts and no attribute error arises on this path. -/
def RectSection.get_moment_resistance (width height cy : ℚ) (m : Mat) (n : ℕ)
    (e0 k center : ℚ) : Except PyErr ℚ :=
  match RectSection.get_normal_resistance_discrete width height cy m n e0 k center with
  | Except.error e => Except.error e
  | Except.ok v =>
    Except.ok (v.mulArr (RectSection.dists height cy n center)).sum

/-- Model of `RectSection.get_normal_stiff_discrete` (geometry.py 236-240):
`material.get_stiff(strains)` is an ndarray call; for `Linear` and the steel
laws the result is a plain scalar, not an array. -/
def RectSection.get_normal_stiff_discrete (width height cy : ℚ) (m : Mat)
    (n : ℕ) (e0 k center : ℚ) : Except PyErr NpVal :=
  match m.stiff_arr
      (RectSection.get_strains height n (RectSection.get_e0_sec cy e0 k center) k) with
  | Except.error e => Except.error e
  | Except.ok v => Except.ok (v.scale (RectSection.area_discret width height n))

/-- Model of `RectSection.get_stiffness` (geometry.py 242-252): the first
entry is computed by the method call `normal.sum()` (line 247), which
raises `AttributeError` whenever the material's `get_stiff` produced a
plain scalar (`Linear`, the steel laws); only a genuine ndarray yields the
2x2 matrix. -/
def RectSection.get_stiffness (width height cy : ℚ) (m : Mat) (n : ℕ)
    (e0 k center : ℚ) : Except PyErr M2 :=
  match RectSection.get_normal_stiff_discrete width height cy m n e0 k center with
  | Except.error e => Except.error e
  | Except.ok (NpVal.scalar _) => Except.error PyErr.attributeError
  | Except.ok (NpVal.arr nd) =>
    let ds := RectSection.dists height cy n center
    Except.ok
      ⟨nd.sum,
       (List.zipWith (· * ·) nd ds).sum,
       (List.zipWith (· * ·) nd ds).sum,
       (List.zipWith (fun x d => x * d ^ 2) nd ds).sum⟩

/-- Model of `Rebar` area after construction: `pi * diameter**2 / 4` with `math.pi`
(geometry.py line 301 overwrites the setter value). -/
def Rebar.area (diameter : ℚ) : ℚ := piFloat * diameter ^ 2 / 4

/-- Local strain of a point fiber: `e0 + k * (center - self.center[1])`. -/
def Rebar.strainAt (cy e0 k center : ℚ) : ℚ := e0 + k * (center - cy)

/-- Model of `Rebar.get_normal_stress` (geometry.py 333-334). -/
def Rebar.get_normal_stress (diameter : ℚ) (m : Mat) (strain : ℚ) : ℚ :=
  Rebar.area diameter * m.stress strain

/-- Model of `Rebar.get_normal_resistance` (geometry.py 336-338). -/
def Rebar.get_normal_resistance (diameter cy : ℚ) (m : Mat)
    (e0 k center : ℚ) : ℚ :=
  Rebar.get_normal_stress diameter m (Rebar.strainAt cy e0 k center)

/-- Model of `Rebar.get_moment_resistance` (geometry.py 340-342). -/
def Rebar.get_moment_resistance (diameter cy : ℚ) (m : Mat)
    (e0 k center : ℚ) : ℚ :=
  Rebar.get_normal_stress diameter m (Rebar.strainAt cy e0 k center) *
    (center - cy)

/-- Model of `Rebar.get_stiffness` (geometry.py 344-354). -/
def Rebar.get_stiffness (diameter cy : ℚ) (m : Mat) (e0 k center : ℚ) : M2 :=
  let normal := Rebar.area diameter * m.stiff (Rebar.strainAt cy e0 k center)
  let dist := center - cy
  ⟨normal, normal * dist, normal * dist, normal * dist ^ 2⟩

/-- Model of `Tendon.get_normal_stress` (geometry.py 385-389): zero once the local
strain (before the initial-strain offset) exceeds `strain_ULS`, otherwise the
material stress at `strain + initial_strain` times the area. -/
def Tendon.get_normal_stress (diameter : ℚ) (m : Mat)
    (initial_strain strain_ULS strain : ℚ) : ℚ :=
  if strain_ULS < strain then 0
  else Rebar.area diameter * m.stress (strain + initial_strain)

/-- Model of `Tendon` normal resistance: `Rebar.get_normal_resistance` inherited with
the overridden `get_normal_stress` (dynamic dispatch). -/
def Tendon.get_normal_resistance (diameter cy : ℚ) (m : Mat)
    (initial_strain strain_ULS e0 k center : ℚ) : ℚ :=
  Tendon.get_normal_stress diameter m initial_strain strain_ULS
    (Rebar.strainAt cy e0 k center)

/-- Model of `Tendon` moment resistance: `Rebar.get_moment_resistance` inherited with
the overridden `get_normal_stress`. -/
def Tendon.get_moment_resistance (diameter cy : ℚ) (m : Mat)
    (initial_strain strain_ULS e0 k center : ℚ) : ℚ :=
  Tendon.get_normal_stress diameter m initial_strain strain_ULS
    (Rebar.strainAt cy e0 k center) * (center - cy)

/-- Model of `Tendon.get_stiffness` (geometry.py 391-404): the zero matrix once the
local strain exceeds `strain_ULS`. -/
def Tendon.get_stiffness (diameter cy : ℚ) (m : Mat)
    (initial_strain strain_ULS e0 k center : ℚ) : M2 :=
  if strain_ULS < Rebar.strainAt cy e0 k center then M2.zero
  else
    let normal :=
      Rebar.area diameter * m.stiff (Rebar.strainAt cy e0 k center + initial_strain)
    let dist := center - cy
    ⟨normal, normal * dist, normal * dist, normal * dist ^ 2⟩

/-- Model of `area` property of a fiber. -/
def Fiber.area : Fiber → ℚ
  | .rect w h _ _ _ _ => w * h
  | .rebar d _ _ _ => Rebar.area d
  | .tendon d _ _ _ _ _ => Rebar.area d

/-- The `material` attribute of a fiber. -/
def Fiber.matOf : Fiber → Mat
  | .rect _ _ _ _ m _ => m
  | .rebar _ _ _ m => m
  | .tendon _ _ _ m _ _ => m

/-- Model of `center[0]` of a fiber. -/
def Fiber.cx : Fiber → ℚ
  | .rect _ _ x _ _ _ => x
  | .rebar _ x _ _ => x
  | .tendon _ x _ _ _ _ => x

/-- Model of `center[1]` of a fiber. -/
def Fiber.cy : Fiber → ℚ
  | .rect _ _ _ y _ _ => y
  | .rebar _ _ y _ => y
  | .tendon _ _ y _ _ _ => y

/-- Model of `boundary` property (geometry.py 186-190 and 329-331): two corners for a
rectangle, the single center point for a rebar or tendon. -/
def Fiber.boundary : Fiber → List (ℚ × ℚ)
  | .rect w h x y _ _ => [(x - w / 2, y - h / 2), (x + w / 2, y + h / 2)]
  | .rebar _ x y _ => [(x, y)]
  | .tendon _ x y _ _ _ => [(x, y)]

/-- Dynamic dispatch of `get_normal_resistance` over the fiber variants:
the point-fiber methods are pure scalar arithmetic, the rectangle may
raise through its material's ndarray call. -/
def Fiber.get_normal_resistance : Fiber → ℚ → ℚ → ℚ → Except PyErr ℚ
  | .rect w h _ y m n => fun e0 k c => RectSection.get_normal_resistance w h y m n e0 k c
  | .rebar d _ y m => fun e0 k c => Except.ok (Rebar.get_normal_resistance d y m e0 k c)
  | .tendon d _ y m i u => fun e0 k c =>
    Except.ok (Tendon.get_normal_resistance d y m i u e0 k c)

/-- Dynamic dispatch of `get_moment_resistance` over the fiber variants. -/
def Fiber.get_moment_resistance : Fiber → ℚ → ℚ → ℚ → Except PyErr ℚ
  | .rect w h _ y m n => fun e0 k c => RectSection.get_moment_resistance w h y m n e0 k c
  | .rebar d _ y m => fun e0 k c => Except.ok (Rebar.get_moment_resistance d y m e0 k c)
  | .tendon d _ y m i u => fun e0 k c =>
    Except.ok (Tendon.get_moment_resistance d y m i u e0 k c)

/-- Dynamic dispatch of `get_stiffness` over the fiber variants. -/
def Fiber.get_stiffness : Fiber → ℚ → ℚ → ℚ → Except PyErr M2
  | .rect w h _ y m n => fun e0 k c => RectSection.get_stiffness w h y m n e0 k c
  | .rebar d _ y m => fun e0 k c => Except.ok (Rebar.get_stiffness d y m e0 k c)
  | .tendon d _ y m i u => fun e0 k c =>
    Except.ok (Tendon.get_stiffness d y m i u e0 k c)

/-- The state a `Section` object carries into its solvers: the fiber list,
the stored `centroid[1]`, and the solver configuration attributes set by
`__init__` (section.py 10-24), all overridable per instance. -/
structure Sec where
  fibers : List Fiber
  centroid_y : ℚ
  residual_e0 : ℚ := 10
  max_increment_e0 : ℚ := 1 / 2000
  n_ite_e0 : ℕ := 30
  tolerance_check_section : ℚ := 1 / 100

/-- A Python list comprehension over fallible element computations: the
elements are evaluated left to right and the first exception propagates. -/
def exceptMapList {α β : Type} (f : α → Except PyErr β) : List α → Except PyErr (List β)
  | [] => Except.ok []
  | a :: as =>
    match f a with
    | Except.error e => Except.error e
    | Except.ok b =>
      match exceptMapList f as with
      | Except.error e => Except.error e
      | Except.ok bs => Except.ok (b :: bs)

/-- Model of `Section.get_normal_res` (section.py 53-56): the comprehension
collects each fiber's normal resistance (first exception propagates) and
sums. -/
def Sec.get_normal_res (s : Sec) (e0 k : ℚ) : Except PyErr ℚ :=
  match exceptMapList (fun f => f.get_normal_resistance e0 k s.centroid_y) s.fibers with
  | Except.error e => Except.error e
  | Except.ok xs => Except.ok xs.sum

/-- Model of `Section.get_moment_res` (section.py 48-51). -/
def Sec.get_moment_res (s : Sec) (e0 k : ℚ) : Except PyErr ℚ :=
  match exceptMapList (fun f => f.get_moment_resistance e0 k s.centroid_y) s.fibers with
  | Except.error e => Except.error e
  | Except.ok xs => Except.ok xs.sum

/-- Model of `Section.get_stiff` (section.py 58-60). -/
def Sec.get_stiff (s : Sec) (e0 k : ℚ) : Except PyErr M2 :=
  match exceptMapList (fun f => f.get_stiffness e0 k s.centroid_y) s.fibers with
  | Except.error e => Except.error e
  | Except.ok ks => Except.ok (M2.sumList ks)

/-- Model of `np.sign` on a float. -/
def qsign (q : ℚ) : ℚ := if 0 < q then 1 else if q < 0 then -1 else 0

/-- One fuel-indexed unfolding of the `Section.get_e0` Newton loop
(section.py 63-79): the residual compared against `residual_e0` is
`abs(abs(target_normal) - abs(normal_int))`; a converged strain is returned
as `some e0`; an axial stiffness below `1e-10` raises `ZeroDivisionError`;
exceptions raised while computing the resultants (e.g. the
`AttributeError` of a scalar-stiffness material on a rectangle) propagate;
when the fuel (iteration cap `n_ite_e0`) runs out the Python code
`return None`, modelled as `ok none`. -/
def Sec.get_e0_loop (s : Sec) (k target_normal : ℚ) :
    ℕ → ℚ → Except PyErr (Option ℚ)
  | 0, _ => Except.ok none
  | fuel + 1, e0 =>
    match s.get_normal_res e0 k with
    | Except.error e => Except.error e
    | Except.ok normal_int =>
      if |(|target_normal| - |normal_int|)| < s.residual_e0 then Except.ok (some e0)
      else
        match s.get_stiff e0 k with
        | Except.error e => Except.error e
        | Except.ok K =>
          if K.a00 < 1 / 10 ^ 10 then Except.error PyErr.zeroDivisionError
          else
            let increment := (target_normal - normal_int) / K.a00
            s.get_e0_loop k target_normal fuel
              (e0 + qsign increment * min |increment| s.max_increment_e0)

/-- Model of `Section.get_e0(k, e0, target_normal)` (section.py 63-79). -/
def Sec.get_e0 (s : Sec) (k e0 target_normal : ℚ) : Except PyErr (Option ℚ) :=
  s.get_e0_loop k target_normal s.n_ite_e0 e0

/-- One fuel-indexed unfolding of the `Section.check_section` Newton loop
(section.py 81-102).  `np.linalg.norm(residual) < tol` is modelled by the
equivalent `0 < tol ∧ r0^2 + r1^2 < tol^2`; a determinant below
`tolerance_check_section` breaks out of the loop, and both the break and an
exhausted iteration cap end in Python `return None, None`, modelled
`ok none` (no exception); resultant exceptions propagate uncaught. -/
def Sec.check_loop (s : Sec) (target_normal target_moment : ℚ) :
    ℕ → ℚ → ℚ → Except PyErr (Option (ℚ × ℚ))
  | 0, _, _ => Except.ok none
  | fuel + 1, e0, k =>
    match s.get_normal_res e0 k with
    | Except.error e => Except.error e
    | Except.ok normal =>
      match s.get_moment_res e0 k with
      | Except.error e => Except.error e
      | Except.ok moment =>
        let r0 := target_normal - normal
        let r1 := target_moment - moment
        if 0 < s.tolerance_check_section ∧
            r0 ^ 2 + r1 ^ 2 < s.tolerance_check_section ^ 2 then
          Except.ok (some (e0, k))
        else
          match s.get_stiff e0 k with
          | Except.error e => Except.error e
          | Except.ok K =>
            let det := K.a00 * K.a11 - K.a01 * K.a10
            if det < s.tolerance_check_section then Except.ok none
            else
              s.check_loop target_normal target_moment fuel
                (e0 + (K.a11 * r0 - K.a01 * r1) / det)
                (k + (K.a00 * r1 - K.a10 * r0) / det)

/-- Model of `Section.check_section(target_normal, target_moment, n_ite)`
(section.py 81-102), starting from `e0 = 0, k = 0`. -/
def Sec.check_section (s : Sec) (target_normal target_moment : ℚ)
    (n_ite : ℕ) : Except PyErr (Option (ℚ × ℚ)) :=
  s.check_loop target_normal target_moment n_ite 0 0

/-- Model of `np.linspace(0, k_max, n)`. -/
def linspace (k_max : ℚ) (n : ℕ) : List ℚ :=
  if n = 0 then []
  else if n = 1 then [0]
  else (List.range n).map (fun i => k_max * i / ((n : ℚ) - 1))

/-- The loop body of `Section.get_moment_curvature` (section.py 185-195).
Each sample runs `e0 = get_e0(k[i], e0, normal_force)` and then
`moment[i] = get_moment_res(e0, k[i])` inside `try/except ZeroDivisionError`,
which records `0`; a `ZeroDivisionError` from `get_e0` leaves the previous
`e0` in place, one from `get_moment_res` keeps the newly assigned value.
Any other exception propagates; in particular, when `get_e0` returns `None`
on iteration-cap exhaustion, `get_moment_res(None, k[i])` computes
`None + k * _` and raises `TypeError`, aborting the whole sweep. -/
def Sec.mc_loop (s : Sec) (normal_force : ℚ) :
    List ℚ → ℚ → Except PyErr (List ℚ)
  | [], _ => Except.ok []
  | k :: ks, e0 =>
    match s.get_e0 k e0 normal_force with
    | Except.error PyErr.zeroDivisionError =>
      match s.mc_loop normal_force ks e0 with
      | Except.ok ms => Except.ok (0 :: ms)
      | Except.error e => Except.error e
    | Except.error e => Except.error e
    | Except.ok none => Except.error PyErr.typeError
    | Except.ok (some e1) =>
      match s.get_moment_res e1 k with
      | Except.error PyErr.zeroDivisionError =>
        match s.mc_loop normal_force ks e1 with
        | Except.ok ms => Except.ok (0 :: ms)
        | Except.error e => Except.error e
      | Except.error e => Except.error e
      | Except.ok mval =>
        match s.mc_loop normal_force ks e1 with
        | Except.ok ms => Except.ok (mval :: ms)
        | Except.error e => Except.error e

/-- Model of `Section.get_moment_curvature(k_max, normal_force, n_points)`
(section.py 185-195), returning the curvature samples and moments. -/
def Sec.get_moment_curvature (s : Sec) (k_max normal_force : ℚ)
    (n_points : ℕ) : Except PyErr (List ℚ × List ℚ) :=
  match s.mc_loop normal_force (linspace k_max n_points) 0 with
  | Except.ok ms => Except.ok (linspace k_max n_points, ms)
  | Except.error e => Except.error e

/-- Float division as numpy performs it inside `_compute_centroid`: a zero
denominator yields a non-finite value (nan for a zero numerator, signed inf
otherwise) with only a runtime warning; the non-finite outcome is modelled
as `none`.  No exception is raised on any path. -/
def pydiv (a b : ℚ) : Option ℚ := if b = 0 then none else some (a / b)

/-- Model of `Section._compute_centroid` (section.py 26-35): stiffness-weighted
average of the fiber centers, weights `area * material.get_stiff()` with the
default strain `0`.  The source contains no raise statement; degenerate
inputs flow through `0.0 / 0.0`. -/
def Sec.compute_centroid (fibs : List Fiber) : Option ℚ × Option ℚ :=
  let weighted := fibs.map (fun f => f.area * f.matOf.stiff 0)
  (pydiv (List.zipWith (fun w f => w * f.cx) weighted fibs).sum weighted.sum,
   pydiv (List.zipWith (fun w f => w * f.cy) weighted fibs).sum weighted.sum)

/-- The centroid established by `Section.__init__` (section.py 10-24): the
numeric default `(0, 0)` when no fiber list is passed, otherwise the value
computed by `_compute_centroid`. -/
def Sec.initCentroid : Option (List Fiber) → Option ℚ × Option ℚ
  | none => (some 0, some 0)
  | some fibs => Sec.compute_centroid fibs

/-- One accumulator update of `Section.get_section_boundary`
(section.py 284-300): fold state `((x0, y0), (x1, y1))`, each coordinate
replaced when the point lies strictly outside. -/
def boundStep (st : (ℚ × ℚ) × (ℚ × ℚ)) (p : ℚ × ℚ) : (ℚ × ℚ) × (ℚ × ℚ) :=
  ((if p.1 < st.1.1 then p.1 else st.1.1,
    if p.2 < st.1.2 then p.2 else st.1.2),
   (if st.2.1 < p.1 then p.1 else st.2.1,
    if st.2.2 < p.2 then p.2 else st.2.2))

/-- All boundary points of all fibers of a section, in iteration order. -/
def Sec.allPoints (s : Sec) : List (ℚ × ℚ) := (s.fibers.map Fiber.boundary).flatten

/-- Model of `Section.get_section_boundary` (section.py 284-300): the nested loops
over fibers and their boundary points thread the four accumulators
`x0 = y0 = x1 = y1 = 0` in order, i.e. a left fold of `boundStep` over the
concatenated point list starting from `((0,0),(0,0))`. -/
def Sec.get_section_boundary (s : Sec) : (ℚ × ℚ) × (ℚ × ℚ) :=
  (Sec.allPoints s).foldl boundStep ((0, 0), (0, 0))

/-- Bounding box as the specification describes `get_section_boundary`:
the componentwise minimum and maximum over the boundary points of all
fibers and nothing else.  Modelled from the spec for comparison with the
code; the empty case is irrelevant to its use. -/
def bboxOfPoints : List (ℚ × ℚ) → (ℚ × ℚ) × (ℚ × ℚ)
  | [] => ((0, 0), (0, 0))
  | p :: ps =>
    ps.foldl
      (fun st q =>
        ((min st.1.1 q.1, min st.1.2 q.2), (max st.2.1 q.1, max st.2.2 q.2)))
      ((p.1, p.2), (p.1, p.2))

/-- A one-fiber section: a single rebar of diameter 2 (area `math.pi`) at
the origin with a linear material of modulus `1e6`, centroid at the rebar
center, iteration cap configured to 5.  A rebar-only section keeps every
resultant on the pure scalar path of `Rebar.get_stiffness` (no `.sum()`
method call), so the solver loops run to their own exits. -/
def secCap : Sec :=
  { fibers := [Fiber.rebar 2 0 0 (Linear.mat 1000000)],
    centroid_y := 0,
    n_ite_e0 := 5 }

/-- A one-fiber section: a single rebar of diameter 2 at the origin with a
linear material of modulus `2e11`; its centroid is the rebar center. -/
def secRebar : Sec :=
  { fibers := [Fiber.rebar 2 0 0 (Linear.mat 200000000000)],
    centroid_y := 0 }

/-- A one-fiber section: a single rebar of diameter 2 (area `math.pi`) at
the origin with `SteelIdeal(young=2e11, fy=2e7)` (yield strain `1e-4`,
ultimate strain `1e-2`), centroid at the rebar center, iteration cap
configured to 5.  The rebar's scalar stiffness is `0` once the strain
leaves the elastic band, driving the axial solver into its
`ZeroDivisionError` branch. -/
def secSteel : Sec :=
  { fibers := [Fiber.rebar 2 0 0 (SteelIdeal.mat 200000000000 20000000 (1 / 100))],
    centroid_y := 0,
    n_ite_e0 := 5 }

/-- A one-fiber section: a single rebar at `(1, 2)`, entirely inside the
positive quadrant, with a linear material; its centroid is the rebar
center. -/
def secQuadrant : Sec :=
  { fibers := [Fiber.rebar 1 1 2 (Linear.mat 5)],
    centroid_y := 2 }

/-- Model of `Concrete._get_constants(fc)` (material.py 111-129): returns
`(ec2, ecu, n)`.  Low-strength regime `0 <= fc < 55e6` has fixed constants;
the high-strength regime `55e6 <= fc <= 90e6` uses the float power `**0.53`
(real `rpow`) and the integer power `**4`; any other `fc` raises
`ValueError`.  Real-valued because of the non-integer exponent. -/
noncomputable def Concrete.getConstants (fc : ℝ) : Except PyErr (ℝ × ℝ × ℝ) :=
  if 0 ≤ fc ∧ fc < 55e6 then Except.ok (-2 / 1e3, -3.5 / 1e3, 2)
  else if 55e6 ≤ fc ∧ fc ≤ 90e6 then
    Except.ok
      (-1 * (2 / 1e3 + 0.085 / 1e3 * (fc / 1e6 - 50) ^ (0.53 : ℝ)),
       -1 * (2.6 / 1e3 + 35 / 1e3 * ((90 - fc / 1e6) / 100) ^ (4 : ℕ)),
       1.4 + 23.4 * ((90 - fc / 1e6) / 100) ^ (4 : ℕ))
  else Except.error PyErr.valueError

/-- Model of `Concrete.get_stress` (material.py 164-188) in terms of the stored
attributes `fc, ec2, ecu, n`.  `np.select` picks the first of the three
conditions that holds, with default `0`; the ascending branch uses the float
power `** self.n` (real `rpow`). -/
noncomputable def Concrete.get_stress (fc ec2 ecu n strain : ℝ) : ℝ :=
  if ec2 ≤ strain ∧ strain ≤ 0 then -1 * fc * (1 - (1 - strain / ec2) ^ n)
  else if ecu ≤ strain ∧ strain ≤ ec2 then -fc
  else if strain ≤ ecu then 0
  else 0

/-- Model of `Concrete.get_stiff` (material.py 140-162) in terms of the stored
attributes: the analytic derivative of the ascending branch on
`ec2 <= strain <= 0`, and zero for `strain <= ec2` and by default. -/
noncomputable def Concrete.get_stiff (fc ec2 ecu n strain : ℝ) : ℝ :=
  if ec2 ≤ strain ∧ strain ≤ 0 then
    -1 * (fc * n * (1 - strain / ec2) ^ (n - 1) / ec2)
  else if strain ≤ ec2 then 0
  else 0

/-- Model of `Concrete.get_stress` on a numpy array: `np.select` with elementwise
conditions and results applies the scalar selection at every index. -/
noncomputable def Concrete.get_stress_array (fc ec2 ecu n : ℝ)
    (strains : List ℝ) : List ℝ :=
  strains.map (fun s => Concrete.get_stress fc ec2 ecu n s)

/-- The `ec2` attribute of `Concrete(fc=90e6)`:
`-1*((2/1e3) + (0.085/1e3 * (90 - 50)**0.53))`. -/
noncomputable def ec2at90 : ℝ := -1 * (2 / 1e3 + 0.085 / 1e3 * (40 : ℝ) ^ (0.53 : ℝ))

/-- The `Rebar.diameter` setter (geometry.py 309-315): rejects negative
diameters, otherwise stores `_area = 3.141592*(new_diameter**2)/4`
(the six-digit literal, not `math.pi`). -/
noncomputable def Rebar.set_diameter (d : ℝ) : Except PyErr ℝ :=
  if 0 ≤ d then Except.ok (3.141592 * d ^ (2 : ℕ) / 4)
  else Except.error PyErr.valueError

/-- The `Rebar.area` setter (geometry.py 321-327): rejects negative areas,
otherwise stores `_diameter = (new_area*4/pi)**0.5` with `math.pi` and the
float half power (real `rpow`). -/
noncomputable def Rebar.set_area (a : ℝ) : Except PyErr ℝ :=
  if 0 ≤ a then Except.ok ((a * 4 / Real.pi) ^ ((0.5 : ℝ)))
  else Except.error PyErr.valueError

/-- Diameter round trip: set the diameter, read the derived area, set that
area, read the diameter back. -/
noncomputable def Rebar.roundTrip (d : ℝ) : Except PyErr ℝ :=
  (Rebar.set_diameter d).bind Rebar.set_area

/-- The iteration of `get_section_boundary` keeps running minima and maxima:
one `boundStep` update agrees with componentwise `min`/`max` against the
incoming accumulator. -/
theorem boundStep_min_max (a b c e : ℚ) (p : ℚ × ℚ) :
    boundStep ((a, b), (c, e)) p =
      ((min a p.1, min b p.2), (max c p.1, max e p.2)) := by
  have hmin : ∀ x y : ℚ, (if y < x then y else x) = min x y := by
    intro x y
    rcases le_total x y with h | h
    · rw [if_neg (not_lt.mpr h), min_eq_left h]
    · rcases eq_or_lt_of_le h with h2 | h2
      · simp [h2]
      · rw [if_pos h2, min_eq_right h]
  have hmax : ∀ x y : ℚ, (if x < y then y else x) = max x y := by
    intro x y
    rcases le_total y x with h | h
    · rw [if_neg (not_lt.mpr h), max_eq_left h]
    · rcases eq_or_lt_of_le h with h2 | h2
      · simp [h2]
      · rw [if_pos h2, max_eq_right h]
  simp only [boundStep, hmin, hmax]

/-- Folding `boundStep` over a point list computes, in each component, the
fold of `min` (respectively `max`) over that coordinate starting from the
incoming accumulator. -/
theorem boundFold_min_max (pts : List (ℚ × ℚ)) (a b c e : ℚ) :
    pts.foldl boundStep ((a, b), (c, e)) =
      (((pts.map Prod.fst).foldl min a, (pts.map Prod.snd).foldl min b),
       ((pts.map Prod.fst).foldl max c, (pts.map Prod.snd).foldl max e)) := by
  induction pts generalizing a b c e with
  | nil => rfl
  | cons p ps ih =>
    simp only [List.foldl_cons, List.map_cons, boundStep_min_max]
    exact ih _ _ _ _

set_option maxHeartbeats 2000000

/-- Evaluation of the `get_e0` loop on the rebar-only section `secCap` with
target `1e5` (the converged strain would be `1e5/(pi*1e6) ≈ 0.0318`): every
one of the 5 configured iterations leaves a residual above `9e4`, each
Newton step is clamped to `max_increment_e0 = 5e-4`, and the exhausted cap
returns Python `None`. -/
theorem secCap_get_e0_eval :
    Sec.get_e0 secCap 0 0 100000 = Except.ok none := by
  norm_num [Sec.get_e0, Sec.get_e0_loop, Sec.get_normal_res,
    Sec.get_stiff, secCap, exceptMapList, Fiber.get_normal_resistance,
    Fiber.get_stiffness, Rebar.get_normal_resistance, Rebar.get_normal_stress,
    Rebar.get_stiffness, Rebar.strainAt, Rebar.area, piFloat,
    Linear.mat, Linear.get_stress, Linear.get_stiff,
    M2.sumList, M2.add, M2.zero, qsign,
    min_def, abs_of_nonneg, abs_of_nonpos, abs_of_pos, abs_of_neg]

/-- C1.  The claim says `get_e0` either converges or raises a convergence
error at the iteration cap.  In fact, on the one-rebar linear section
`secCap` with iteration cap 5 and target normal force `1e5` (which needs
`e0 ≈ 0.0318`, unreachable in 5 clamped steps of `5e-4`), the solver
exhausts its cap and returns Python `None` (`ok none`): no exception is
raised and no converged value is produced. -/
theorem get_e0_cap_exhaustion_returns_none :
    Sec.get_e0 secCap 0 0 100000 = Except.ok none :=
  secCap_get_e0_eval

/-- Resultant normal force of `secRebar` at `(e0, k) = (0, 0)` is zero
(no exception on the rebar's scalar path). -/
theorem secRebar_normal_res : Sec.get_normal_res secRebar 0 0 = Except.ok 0 := by
  norm_num [Sec.get_normal_res, secRebar, exceptMapList,
    Fiber.get_normal_resistance,
    Rebar.get_normal_resistance, Rebar.get_normal_stress, Rebar.strainAt,
    Rebar.area, piFloat, Linear.mat, Linear.get_stress]

/-- Resultant moment of `secRebar` at `(e0, k) = (0, 0)` is zero. -/
theorem secRebar_moment_res : Sec.get_moment_res secRebar 0 0 = Except.ok 0 := by
  norm_num [Sec.get_moment_res, secRebar, exceptMapList,
    Fiber.get_moment_resistance,
    Rebar.get_moment_resistance, Rebar.get_normal_stress, Rebar.strainAt,
    Rebar.area, piFloat, Linear.mat, Linear.get_stress]

/-- Tangent stiffness of `secRebar` at `(0, 0)`: only `a00` is nonzero (the
rebar sits at the reference height), so the determinant is zero. -/
theorem secRebar_stiff : Sec.get_stiff secRebar 0 0 =
    Except.ok ⟨3141592653589793 / 1000000000000000 * 200000000000, 0, 0, 0⟩ := by
  norm_num [Sec.get_stiff, secRebar, exceptMapList,
    Fiber.get_stiffness, Rebar.get_stiffness,
    Rebar.strainAt, Rebar.area, piFloat, Linear.mat, Linear.get_stiff,
    M2.sumList, M2.add, M2.zero]

/-- C2.  The claim says `check_section` raises a section-unstable error when
the tangent-stiffness determinant falls below the floor before convergence.
In fact, on the one-rebar section `secRebar` with targets `(1e6, 1e5)` the
first iteration finds determinant `0 < 0.01` with residual norm far above
tolerance, breaks, and returns Python `(None, None)`: the result is
`ok none` — provably no exception is raised and no solution returned. -/
theorem check_section_singular_returns_none :
    Sec.check_section secRebar 1000000 100000 10 = Except.ok none := by
  have htol : secRebar.tolerance_check_section = 1 / 100 := rfl
  show Sec.check_loop secRebar 1000000 100000 (9 + 1) 0 0 = Except.ok none
  rw [Sec.check_loop]
  simp only [secRebar_normal_res, secRebar_moment_res, secRebar_stiff, htol]
  norm_num

/-- Evaluation of `np.linspace(0, 1, 2)`, which is `[0, 1]`. -/
theorem linspace_one_two : linspace 1 2 = [0, 1] := by
  norm_num [linspace, List.range_succ]

/-- Evaluation of the `get_e0` loop on the rebar-only section `secSteel`
with target `2e9` and curvature `0`: the first iteration is elastic and
advances `e0` by the clamped step `5e-4`, which is beyond the yield strain
`1e-4`, so the second iteration finds axial stiffness `0 < 1e-10` and
raises `ZeroDivisionError`. -/
theorem secSteel_get_e0_k0 :
    Sec.get_e0 secSteel 0 0 2000000000 = Except.error PyErr.zeroDivisionError := by
  norm_num [Sec.get_e0, Sec.get_e0_loop, Sec.get_normal_res,
    Sec.get_stiff, secSteel, exceptMapList, Fiber.get_normal_resistance,
    Fiber.get_stiffness, Rebar.get_normal_resistance, Rebar.get_normal_stress,
    Rebar.get_stiffness, Rebar.strainAt, Rebar.area, piFloat,
    SteelIdeal.mat, SteelIdeal.get_stress, SteelIdeal.get_stiff,
    SteelIdeal.yield_strain,
    M2.sumList, M2.add, M2.zero, qsign,
    min_def, abs_of_nonneg, abs_of_nonpos, abs_of_pos, abs_of_neg]

/-- Same evaluation at curvature `1`: the rebar sits at the reference
height, so its strain is unchanged and the second iteration again raises
`ZeroDivisionError`. -/
theorem secSteel_get_e0_k1 :
    Sec.get_e0 secSteel 1 0 2000000000 = Except.error PyErr.zeroDivisionError := by
  norm_num [Sec.get_e0, Sec.get_e0_loop, Sec.get_normal_res,
    Sec.get_stiff, secSteel, exceptMapList, Fiber.get_normal_resistance,
    Fiber.get_stiffness, Rebar.get_normal_resistance, Rebar.get_normal_stress,
    Rebar.get_stiffness, Rebar.strainAt, Rebar.area, piFloat,
    SteelIdeal.mat, SteelIdeal.get_stress, SteelIdeal.get_stiff,
    SteelIdeal.yield_strain,
    M2.sumList, M2.add, M2.zero, qsign,
    min_def, abs_of_nonneg, abs_of_nonpos, abs_of_pos, abs_of_neg]

/-- C4.  The claim says every failed sample of the moment-curvature sweep
records the sentinel `0` and the sweep continues.  In fact only
`ZeroDivisionError` (axial stiffness loss) is caught: on the rebar-only
section `secSteel` (stiffness loss at both samples) the sweep returns
moments `[0, 0]` and the curvature samples, but on `secCap` with target
`1e5` the first sample exhausts the `get_e0` iteration cap, `get_e0`
returns `None`, and `get_moment_res(None, k)` raises an uncaught
`TypeError` that aborts the whole sweep. -/
theorem moment_curvature_failure_handling :
    Sec.get_moment_curvature secCap 1 100000 2 = Except.error PyErr.typeError ∧
    Sec.get_moment_curvature secSteel 1 2000000000 2 =
      Except.ok ([0, 1], [0, 0]) := by
  constructor
  · have h1 : Sec.mc_loop secCap 100000 [0, 1] 0 = Except.error PyErr.typeError := by
      rw [Sec.mc_loop, secCap_get_e0_eval]
    rw [Sec.get_moment_curvature, linspace_one_two, h1]
  · have h2 : Sec.mc_loop secSteel 2000000000 [1] 0 = Except.ok [0] := by
      rw [Sec.mc_loop, secSteel_get_e0_k1]
      rfl
    have h1 : Sec.mc_loop secSteel 2000000000 [0, 1] 0 = Except.ok [0, 0] := by
      rw [Sec.mc_loop, secSteel_get_e0_k0, h2]
    rw [Sec.get_moment_curvature, linspace_one_two, h1]

/-- C3 counterexample.  The claim says centroid computation on an empty or
zero-stiffness section fails with a degenerate-geometry error.  In fact
`Section()` keeps the numeric default centroid `(0, 0)`, and
`_compute_centroid` on an empty fiber list or on a single fiber of zero
initial material stiffness divides `0.0` by `0.0`, storing a non-finite NaN
centroid (modelled `none`); the source has no raise path at all. -/
theorem centroid_degenerate_no_error :
    Sec.initCentroid none = (some 0, some 0) ∧
    Sec.initCentroid (some []) = (none, none) ∧
    Sec.compute_centroid [Fiber.rebar 2 0 0 (Linear.mat 0)] = (none, none) := by
  refine ⟨rfl, rfl, ?_⟩
  norm_num [Sec.compute_centroid, pydiv, Fiber.area, Fiber.matOf,
    Fiber.cx, Fiber.cy, Rebar.area, piFloat, Linear.mat, Linear.get_stiff]

/-- C3 amended.  Whenever the total stiffness weight
`sum (area * material.get_stiff())` of a fiber list is zero — in particular
for the empty list — `_compute_centroid` performs a division by zero in
both coordinates and stores the non-finite (NaN) pair instead of raising. -/
theorem compute_centroid_zero_weight (fibs : List Fiber)
    (h : (fibs.map (fun f => f.area * f.matOf.stiff 0)).sum = 0) :
    Sec.compute_centroid fibs = (none, none) := by
  simp only [Sec.compute_centroid]
  rw [h]
  simp [pydiv]

/-- C3 witness: the empty section has zero total stiffness weight and gets
the NaN centroid. -/
theorem compute_centroid_zero_weight_witness :
    Sec.compute_centroid [] = (none, none) :=
  compute_centroid_zero_weight [] rfl

/-- C5.  For a `Tendon` fiber, whenever the locally computed strain
`e0 + k * (center - y)` (before the `initial_strain` offset) exceeds
`strain_ULS`, its normal resistance, moment resistance, and every entry of
its stiffness matrix are exactly zero, for an arbitrary material law
(`ok` records that the pure point-fiber methods raise nothing). -/
theorem tendon_rupture_zero (d cx cy : ℚ) (m : Mat)
    (istrain uls e0 k center : ℚ)
    (h : uls < e0 + k * (center - cy)) :
    Fiber.get_normal_resistance (Fiber.tendon d cx cy m istrain uls) e0 k center =
      Except.ok 0 ∧
    Fiber.get_moment_resistance (Fiber.tendon d cx cy m istrain uls) e0 k center =
      Except.ok 0 ∧
    Fiber.get_stiffness (Fiber.tendon d cx cy m istrain uls) e0 k center =
      Except.ok M2.zero := by
  have h' : uls < Rebar.strainAt cy e0 k center := h
  refine ⟨?_, ?_, ?_⟩
  · simp [Fiber.get_normal_resistance, Tendon.get_normal_resistance,
      Tendon.get_normal_stress, if_pos h']
  · simp [Fiber.get_moment_resistance, Tendon.get_moment_resistance,
      Tendon.get_normal_stress, if_pos h']
  · simp [Fiber.get_stiffness, Tendon.get_stiffness, if_pos h']

/-- C5 witness: a ruptured tendon (local strain `1` above `strain_ULS =
0.01`) with a nonzero linear material contributes exactly zero. -/
theorem tendon_rupture_zero_witness :
    (1 / 100 : ℚ) < 1 + 0 * (0 - 0) ∧
    (Fiber.get_normal_resistance (Fiber.tendon 1 0 0 (Linear.mat 7) 0 (1 / 100)) 1 0 0 =
      Except.ok 0 ∧
     Fiber.get_moment_resistance (Fiber.tendon 1 0 0 (Linear.mat 7) 0 (1 / 100)) 1 0 0 =
      Except.ok 0 ∧
     Fiber.get_stiffness (Fiber.tendon 1 0 0 (Linear.mat 7) 0 (1 / 100)) 1 0 0 =
      Except.ok M2.zero) :=
  ⟨by norm_num, tendon_rupture_zero 1 0 0 (Linear.mat 7) 0 (1 / 100) 1 0 0 (by norm_num)⟩

/-- C7.  The claim (and test_materials.py) requires symmetric linear
hardening for strains of magnitude between yield and ultimate.  Evaluating
the code at `SteelHardening(young=200e9, fy=400e6, ft=1200e6,
ultimate_strain=35e-3)`: `get_stress(-0.01)` is the plateau value `-400e6`
(the tests expect the hardening value `-19600000000/33 ≈ -5.939e8`), the
tension side does harden, so the law is not odd-symmetric, and
`get_stiff(-0.005)` is `0` (the tests expect `8e11/33 ≈ 2.424e10`). -/
theorem steel_hardening_compression_plateau :
    SteelHardening.get_stress 200000000000 400000000 1200000000 (35 / 1000) (-(1 / 100)) =
      -400000000 ∧
    SteelHardening.get_stress 200000000000 400000000 1200000000 (35 / 1000) (1 / 100) =
      19600000000 / 33 ∧
    SteelHardening.get_stress 200000000000 400000000 1200000000 (35 / 1000) (-(1 / 100)) ≠
      -SteelHardening.get_stress 200000000000 400000000 1200000000 (35 / 1000) (1 / 100) ∧
    SteelHardening.get_stiff 200000000000 400000000 1200000000 (35 / 1000) (-(5 / 1000)) = 0 := by
  norm_num [SteelHardening.get_stress, SteelHardening.get_stiff,
    SteelHardening.hardening_stiffness, SteelIdeal.yield_strain,
    abs_of_nonneg, abs_of_nonpos]

/-- C8 counterexample.  For a section consisting of one rebar at `(1, 2)`,
the componentwise bounding box of the fiber boundary points is
`((1,2),(1,2))`, but `get_section_boundary` returns `((0,0),(1,2))`: the
origin-initialized accumulators leak into the result. -/
theorem section_boundary_origin_counterexample :
    Sec.get_section_boundary secQuadrant = ((0, 0), (1, 2)) ∧
    bboxOfPoints (Sec.allPoints secQuadrant) = ((1, 2), (1, 2)) ∧
    Sec.get_section_boundary secQuadrant ≠ bboxOfPoints (Sec.allPoints secQuadrant) := by
  have h1 : Sec.get_section_boundary secQuadrant = ((0, 0), (1, 2)) := by
    norm_num [Sec.get_section_boundary, Sec.allPoints, secQuadrant,
      Fiber.boundary, boundStep]
  have h2 : bboxOfPoints (Sec.allPoints secQuadrant) = ((1, 2), (1, 2)) := by
    norm_num [Sec.allPoints, secQuadrant, Fiber.boundary, bboxOfPoints]
  refine ⟨h1, h2, ?_⟩
  rw [h1, h2]
  intro hcontra
  have hx := congrArg (fun q => q.1.1) hcontra
  norm_num at hx

/-- C8 amended.  `get_section_boundary` returns, in each coordinate, the
minimum (respectively maximum) over the boundary points of all fibers
together with the initial accumulator `0`: the axis-aligned bounding box of
the fibers and the origin. -/
theorem section_boundary_includes_origin (s : Sec) :
    Sec.get_section_boundary s =
      ((((Sec.allPoints s).map Prod.fst).foldl min 0,
        ((Sec.allPoints s).map Prod.snd).foldl min 0),
       (((Sec.allPoints s).map Prod.fst).foldl max 0,
        ((Sec.allPoints s).map Prod.snd).foldl max 0)) :=
  boundFold_min_max (Sec.allPoints s) 0 0 0 0

/-- C9.  The claim (and test_materials.py) requires every material law to
accept arrays elementwise.  Evaluating `SteelIdeal(young=200e9, fy=400e6)`
on the two-element strain array `[1e-3, 5e-3]`: `get_stiff` raises
`ValueError` (the chained comparison asks for the truth value of a boolean
array), while the elementwise application the tests assert is
`[200e9, 0]`. -/
theorem steel_ideal_array_raises :
    SteelIdeal.get_stiff_array 200000000000 400000000 [1 / 1000, 5 / 1000] =
      Except.error PyErr.valueError ∧
    [1 / 1000, 5 / 1000].map
        (fun s => SteelIdeal.get_stiff 200000000000 400000000 s) =
      [200000000000, 0] := by
  norm_num [SteelIdeal.get_stiff_array, SteelIdeal.get_stiff,
    SteelIdeal.yield_strain]

/-- Rational lower bound on the float power appearing in the high-strength
concrete constants: `40 ** 0.53 > 7.06`, proved by comparing 100th powers
(`7.06^100 < 40^53`). -/
theorem rpow_forty_gt : (7.06 : ℝ) < (40 : ℝ) ^ ((0.53 : ℝ)) := by
  have hX : (0 : ℝ) < (40 : ℝ) ^ ((0.53 : ℝ)) :=
    Real.rpow_pos_of_pos (by norm_num) _
  by_contra hle
  push_neg at hle
  have hpow : ((40 : ℝ) ^ ((0.53 : ℝ))) ^ (100 : ℕ) ≤ (7.06 : ℝ) ^ (100 : ℕ) :=
    pow_le_pow_left₀ hX.le hle 100
  have hEq : ((40 : ℝ) ^ ((0.53 : ℝ))) ^ (100 : ℕ) = (40 : ℝ) ^ (53 : ℕ) := by
    rw [← Real.rpow_natCast ((40 : ℝ) ^ ((0.53 : ℝ))) 100,
      ← Real.rpow_mul (by norm_num : (0 : ℝ) ≤ 40),
      (by norm_num : (0.53 : ℝ) * ((100 : ℕ) : ℝ) = ((53 : ℕ) : ℝ)),
      Real.rpow_natCast]
  rw [hEq] at hpow
  norm_num at hpow

/-- The constants produced by an admissible `fc` have nonpositive `ec2` and
`ecu`: immediate literals in the low-strength regime; in the high-strength
regime the `rpow` term is positive and the fourth power nonnegative. -/
theorem getConstants_nonpos (fc ec2 ecu n : ℝ)
    (h : Concrete.getConstants fc = Except.ok (ec2, ecu, n)) :
    ec2 ≤ 0 ∧ ecu ≤ 0 := by
  unfold Concrete.getConstants at h
  split_ifs at h with h1 h2
  · simp only [Except.ok.injEq, Prod.mk.injEq] at h
    obtain ⟨he2, heu, -⟩ := h
    constructor <;> [rw [← he2]; rw [← heu]] <;> norm_num
  · simp only [Except.ok.injEq, Prod.mk.injEq] at h
    obtain ⟨he2, heu, -⟩ := h
    have hbase : (0 : ℝ) < fc / 1e6 - 50 := by
      have := h2.1
      norm_num
      linarith
    have hr : (0 : ℝ) < (fc / 1e6 - 50) ^ ((0.53 : ℝ)) :=
      Real.rpow_pos_of_pos hbase _
    have h4 : (0 : ℝ) ≤ ((90 - fc / 1e6) / 100) ^ (4 : ℕ) := by positivity
    constructor
    · rw [← he2]; nlinarith
    · rw [← heu]; nlinarith

/-- C6 amended.  For every admissible `fc` with derived constants
`(ec2, ecu, n)`, `get_stress` and `get_stiff` are zero for every strain
`> 0` and for every strain below both `ec2` and `ecu` (in the low-strength
regime, where `ecu < ec2`, the latter is exactly every strain beyond
`ecu`). -/
theorem concrete_zero_tension_and_crushed (fc ec2 ecu n strain : ℝ)
    (h : Concrete.getConstants fc = Except.ok (ec2, ecu, n))
    (hs : 0 < strain ∨ (strain < ec2 ∧ strain < ecu)) :
    Concrete.get_stress fc ec2 ecu n strain = 0 ∧
    Concrete.get_stiff fc ec2 ecu n strain = 0 := by
  obtain ⟨he2, -⟩ := getConstants_nonpos fc ec2 ecu n h
  have hc1 : ¬(ec2 ≤ strain ∧ strain ≤ 0) := by
    rcases hs with hpos | ⟨h1, -⟩
    · rintro ⟨-, hb⟩; linarith
    · rintro ⟨ha, -⟩; linarith
  have hc2 : ¬(ecu ≤ strain ∧ strain ≤ ec2) := by
    rcases hs with hpos | ⟨-, h2⟩
    · rintro ⟨-, hb⟩; linarith
    · rintro ⟨ha, -⟩; linarith
  constructor
  · simp only [Concrete.get_stress, if_neg hc1, if_neg hc2]
    split <;> rfl
  · simp only [Concrete.get_stiff, if_neg hc1]
    split <;> rfl

/-- C6 witness: `Concrete(fc=40e6)` has constants
`(-0.002, -0.0035, 2)`, and at the tensile strain `1` both stress and
stiffness are zero. -/
theorem concrete_zero_tension_and_crushed_witness :
    Concrete.getConstants 40e6 = Except.ok (-2 / 1e3, -3.5 / 1e3, 2) ∧
    Concrete.get_stress 40e6 (-2 / 1e3) (-3.5 / 1e3) 2 1 = 0 ∧
    Concrete.get_stiff 40e6 (-2 / 1e3) (-3.5 / 1e3) 2 1 = 0 := by
  have h : Concrete.getConstants 40e6 = Except.ok (-2 / 1e3, -3.5 / 1e3, 2) := by
    unfold Concrete.getConstants
    rw [if_pos (by norm_num : (0 : ℝ) ≤ 40e6 ∧ (40e6 : ℝ) < 55e6)]
  have hz := concrete_zero_tension_and_crushed 40e6 (-2 / 1e3) (-3.5 / 1e3) 2 1 h
    (Or.inl (by norm_num))
  exact ⟨h, hz.1, hz.2⟩

/-- C6 counterexample.  At the admissible strength `fc = 90e6` the derived
constants satisfy `ec2 < ecu` reversed: `ecu = -0.0026` exceeds
`ec2 = -(0.002 + 0.000085 * 40**0.53) ≈ -0.0026005`.  The strain
`-0.0026001` lies beyond the ultimate compressive strain `ecu`, yet
`get_stress` selects the ascending power-law branch and returns a strictly
negative stress, not zero. -/
theorem concrete_nonzero_beyond_ecu :
    Concrete.getConstants 90e6 = Except.ok (ec2at90, -2.6 / 1e3, 1.4) ∧
    (-0.0026001 : ℝ) < -2.6 / 1e3 ∧
    Concrete.get_stress 90e6 ec2at90 (-2.6 / 1e3) 1.4 (-0.0026001) < 0 := by
  have hX := rpow_forty_gt
  have hc : Concrete.getConstants 90e6 = Except.ok (ec2at90, -2.6 / 1e3, 1.4) := by
    unfold Concrete.getConstants
    rw [if_neg (by norm_num), if_pos (by norm_num : (55e6 : ℝ) ≤ 90e6 ∧ (90e6 : ℝ) ≤ 90e6)]
    rw [(by norm_num : (90e6 : ℝ) / 1e6 - 50 = 40),
      (by norm_num : ((90 : ℝ) - 90e6 / 1e6) / 100 = 0)]
    rw [ec2at90]
    norm_num
  refine ⟨hc, by norm_num, ?_⟩
  have hec2lt : ec2at90 < -0.0026001 := by
    rw [ec2at90]
    nlinarith
  have hec2neg : ec2at90 < 0 := by linarith
  have hr_pos : 0 < (-0.0026001 : ℝ) / ec2at90 :=
    div_pos_of_neg_of_neg (by norm_num) hec2neg
  have hr_lt1 : (-0.0026001 : ℝ) / ec2at90 < 1 :=
    (div_lt_one_of_neg hec2neg).mpr hec2lt
  have hx0 : (0 : ℝ) ≤ 1 - -0.0026001 / ec2at90 := by linarith
  have hx1 : 1 - (-0.0026001 : ℝ) / ec2at90 < 1 := by linarith
  have hrp : (1 - (-0.0026001 : ℝ) / ec2at90) ^ ((1.4 : ℝ)) < 1 :=
    Real.rpow_lt_one hx0 hx1 (by norm_num)
  simp only [Concrete.get_stress, if_pos (And.intro hec2lt.le (by norm_num : (-0.0026001 : ℝ) ≤ 0))]
  nlinarith

/-- C10.  The rebar diameter round trip (set diameter `d ≥ 0`, read derived
area, set that area, read diameter) returns exactly
`sqrt(3.141592 / pi) * d` — the diameter setter uses the literal
`3.141592`, the area setter `math.pi` — which reproduces `d` from below
within a relative error of `4e-7`. -/
theorem rebar_diameter_area_roundtrip (d : ℝ) (hd : 0 ≤ d) :
    Rebar.roundTrip d = Except.ok (Real.sqrt (3.141592 / Real.pi) * d) ∧
    (1 - 4 / 10 ^ 7) * d ≤ Real.sqrt (3.141592 / Real.pi) * d ∧
    Real.sqrt (3.141592 / Real.pi) * d ≤ d := by
  have hpi : (3.141592 : ℝ) < Real.pi := Real.pi_gt_d6
  have hpi2 : Real.pi < 3.141593 := Real.pi_lt_d6
  have hpip : (0 : ℝ) < Real.pi := Real.pi_pos
  have hanneg : (0 : ℝ) ≤ 3.141592 * d ^ (2 : ℕ) / 4 := by positivity
  have hrt : Rebar.roundTrip d =
      Except.ok ((3.141592 * d ^ (2 : ℕ) / 4 * 4 / Real.pi) ^ ((0.5 : ℝ))) := by
    unfold Rebar.roundTrip Rebar.set_diameter Rebar.set_area
    rw [if_pos hd]
    simp only [Except.bind]
    rw [if_pos hanneg]
  have hbase : (3.141592 * d ^ (2 : ℕ) / 4 * 4 / Real.pi)
      = 3.141592 / Real.pi * d ^ (2 : ℕ) := by
    field_simp
  have hval : ((3.141592 * d ^ (2 : ℕ) / 4 * 4 / Real.pi)) ^ ((0.5 : ℝ))
      = Real.sqrt (3.141592 / Real.pi) * d := by
    rw [hbase, (by norm_num : (0.5 : ℝ) = 1 / 2), ← Real.sqrt_eq_rpow,
      Real.sqrt_mul (by positivity) (d ^ (2 : ℕ)), Real.sqrt_sq hd]
  have hle1 : Real.sqrt (3.141592 / Real.pi) ≤ 1 := by
    have hx : (3.141592 : ℝ) / Real.pi ≤ 1 := by
      rw [div_le_one hpip]
      exact hpi.le
    have := Real.sqrt_le_sqrt hx
    rwa [Real.sqrt_one] at this
  have hge : (1 - 4 / 10 ^ 7 : ℝ) ≤ Real.sqrt (3.141592 / Real.pi) := by
    refine Real.le_sqrt_of_sq_le ?_
    rw [le_div_iff₀ hpip]
    nlinarith
  refine ⟨by rw [hrt, hval], ?_, ?_⟩
  · exact mul_le_mul_of_nonneg_right hge hd
  · calc Real.sqrt (3.141592 / Real.pi) * d ≤ 1 * d :=
        mul_le_mul_of_nonneg_right hle1 hd
      _ = d := one_mul d

/-- C10 witness: the round trip at `d = 1`. -/
theorem rebar_diameter_area_roundtrip_witness :
    (0 : ℝ) ≤ 1 ∧
    (Rebar.roundTrip 1 = Except.ok (Real.sqrt (3.141592 / Real.pi) * 1) ∧
     (1 - 4 / 10 ^ 7 : ℝ) * 1 ≤ Real.sqrt (3.141592 / Real.pi) * 1 ∧
     Real.sqrt (3.141592 / Real.pi) * 1 ≤ 1) :=
  ⟨by norm_num, rebar_diameter_area_roundtrip 1 (by norm_num)⟩

end Secan
